import Mathlib

/-!
Verification of the item-deletion endpoint of a small full-stack CRUD
application (Express-style backend over a relational table `items`).

The repository ships the endpoint's exhaustive test suite
(`packages/backend/__tests__/app.test.js`); the handler module itself
(`packages/backend/src/app.js`) is not among the available sources, so the
validator, delete handler, HTTP response mapper and routing behaviour are
modelled from the specification (sections 4.1-4.3, 6 and 8 of the spec),
which was written against that handler and is pinned by the test suite.

Conventions of the embedding:
* a table row is an `Item` (integer primary key `id`, text `name`); the
  table state is a `List Item`;
* the path parameter arrives as a raw `String`; numeric coercion produces
  a `Rat` (exact arithmetic stands in for the runtime's number type; every
  value the contract pins - small integers and `1.5` - is represented
  exactly by both);
* a wire response is a status code plus a structured JSON body
  (`RespBody`); since JSON serialisation of these fixed shapes is
  injective, equality of `RespBody` values is equality of response bytes;
* Express routing for `DELETE /api/items/:id` is modelled by `dispatch`
  on the id path segment: the route matches exactly the nonempty segments.
-/

/-- A row of the `items` table: `items(id INTEGER PRIMARY KEY, name TEXT)`. -/
structure Item where
  id : Int
  name : String
deriving DecidableEq

/-- Structured JSON response bodies of the delete endpoint.
`deletedMsg q` serialises as `\x7b"message":"Item deleted successfully","id":q\x7d`,
`notFoundErr` as `\x7b"error":"Item not found"\x7d`, and
`invalidErr` as `\x7b"error":"Valid item ID is required"\x7d`. -/
inductive RespBody where
  | deletedMsg (id : Rat)
  | notFoundErr
  | invalidErr
deriving DecidableEq

/-- An HTTP response: status code and JSON body. -/
structure Response where
  status : Nat
  body : RespBody
deriving DecidableEq

/-- `true` exactly on the ASCII decimal digits. -/
def isDigitChar (c : Char) : Bool :=
  '0' ≤ c && c ≤ '9'

/-- Base-10 value of a digit string (most significant digit first). -/
def digitsVal (l : List Char) : Nat :=
  l.foldl (fun a c => 10 * a + (c.toNat - 48)) 0

/-- All characters are decimal digits. -/
def allDigits (l : List Char) : Bool :=
  l.all isDigitChar

/-- Split a character list at the first decimal point: integer part, and
the (optional) remainder after the point. -/
def splitFrac : List Char → List Char × Option (List Char)
  | [] => ([], none)
  | c :: rest =>
    if c = '.' then ([], some rest)
    else
      let p := splitFrac rest
      (c :: p.1, p.2)

/-- Modelled from the spec: the request validator's numeric coercion of the
raw path-parameter string (the handler module `packages/backend/src/app.js`
is not among the available sources).  Spec 4.1: accepts strings that parse
under base-10 numeric coercion and are not NaN, including floating-point
strings such as `"1.5"`; rejects the empty string and alphabetic or
symbolic content.  `none` is the NaN / validation-failure outcome. -/
def parseNumber (s : String) : Option Rat :=
  match s.data with
  | [] => none
  | cs =>
    let signed : Bool × List Char :=
      match cs with
      | '-' :: r => (true, r)
      | '+' :: r => (false, r)
      | r => (false, r)
    let p := splitFrac signed.2
    let ip := p.1
    let fp := p.2.getD []
    if allDigits ip && allDigits fp && decide (0 < ip.length + fp.length) then
      let v : Rat := (digitsVal ip : Rat) + (digitsVal fp : Rat) / (10 : Rat) ^ fp.length
      some (if signed.1 then -v else v)
    else none

/-- A row matches the parsed identifier when its primary key equals it as a
number (the storage engine compares the integer column with the bound
numeric parameter, so `1.5` matches no integer key). -/
def matchesId (q : Rat) (it : Item) : Bool :=
  decide ((it.id : Rat) = q)

/-- Modelled from the spec: the delete handler and response mapper of
`DELETE /api/items/:id` (the handler module `packages/backend/src/app.js`
is not among the available sources).  Spec 4.2/4.3: validate the raw id
(failure → 400 `invalidErr`); query storage for a row with the parsed id
(none → 404 `notFoundErr`); otherwise delete exactly the rows with that
primary key and respond 200 with the parsed numeric id.  Returns the
response together with the table state after the request. -/
def deleteItem (rawId : String) (table : List Item) : Response × List Item :=
  match parseNumber rawId with
  | none => (⟨400, RespBody.invalidErr⟩, table)
  | some q =>
    if table.any (matchesId q) then
      (⟨200, RespBody.deletedMsg q⟩, table.filter (fun it => !matchesId q it))
    else
      (⟨404, RespBody.notFoundErr⟩, table)

/-- Outcome of routing a request: either the route matched and the handler
produced a response and a new table state, or the route did not match and
the framework answers a routing-level 404 with no JSON body contract. -/
inductive RouteResult where
  | handled (resp : Response) (table : List Item)
  | unmatched
deriving DecidableEq

/-- Modelled from the spec: Express routing of `DELETE /api/items/:id`
(the application module wiring the route is not among the available
sources).  Spec 4.3/6: the route matches exactly when the id path segment
is nonempty; `DELETE /api/items/` (empty segment) is an unmatched route,
answered 404 at routing level without reaching the handler. -/
def dispatch (idSeg : String) (table : List Item) : RouteResult :=
  if idSeg = "" then RouteResult.unmatched
  else RouteResult.handled (deleteItem idSeg table).1 (deleteItem idSeg table).2

/-- HTTP status of a routing outcome: the handler's status when matched,
the framework's 404 when unmatched. -/
def routeStatus : RouteResult → Nat
  | RouteResult.handled r _ => r.status
  | RouteResult.unmatched => 404

/-- Validation failure: the handler answers 400 `invalidErr` and leaves the
table untouched. -/
theorem deleteItem_invalid {s : String} (table : List Item)
    (h : parseNumber s = none) :
    deleteItem s table = (⟨400, RespBody.invalidErr⟩, table) := by
  simp [deleteItem, h]

/-- A matching row exists: the handler answers 200 and filters out exactly
the matching rows. -/
theorem deleteItem_found {s : String} {q : Rat} (table : List Item)
    (h : parseNumber s = some q) (hmem : table.any (matchesId q) = true) :
    deleteItem s table =
      (⟨200, RespBody.deletedMsg q⟩, table.filter (fun it => !matchesId q it)) := by
  simp [deleteItem, h, hmem]

/-- No matching row: the handler answers 404 `notFoundErr` and leaves the
table untouched. -/
theorem deleteItem_missing {s : String} {q : Rat} (table : List Item)
    (h : parseNumber s = some q) (hmem : table.any (matchesId q) = false) :
    deleteItem s table = (⟨404, RespBody.notFoundErr⟩, table) := by
  simp [deleteItem, h, hmem]

/-- Matching an integer identifier against a row is integer equality of the
primary keys (the cast into `Rat` is injective). -/
theorem matchesId_intCast (k : Int) (it : Item) :
    matchesId (k : Rat) it = decide (it.id = k) := by
  simp [matchesId]

/-- A member row whose key equals the parsed id makes the existence check
succeed. -/
theorem any_matches_of_mem {q : Rat} {table : List Item} {r : Item}
    (hr : r ∈ table) (hid : (r.id : Rat) = q) :
    table.any (matchesId q) = true :=
  List.any_eq_true.mpr ⟨r, hr, by simp [matchesId, hid]⟩

/-- If no row's key equals the parsed id, the existence check fails. -/
theorem any_matches_false {q : Rat} {table : List Item}
    (h : ∀ r ∈ table, (r.id : Rat) ≠ q) :
    table.any (matchesId q) = false :=
  List.any_eq_false.mpr fun r hr => by
    simp only [matchesId, decide_eq_true_eq]
    exact h r hr

/-- After deleting the matching rows, the existence check for the same id
fails. -/
theorem filter_no_match (q : Rat) (table : List Item) :
    (table.filter (fun it => !matchesId q it)).any (matchesId q) = false := by
  rw [List.any_eq_false]
  intro r hr
  have h := (List.mem_filter.mp hr).2
  simpa using h
/-- C1: for every row currently present with id `k`, `DELETE /api/items/k`
answers 200 with body message `Item deleted successfully` and id `k`, no row
with id `k` remains in storage afterwards, and a subsequent
`DELETE /api/items/k` answers 404. -/
theorem delete_existing_success_then_404 (table : List Item) (k : Int)
    (s : String) (hs : parseNumber s = some (k : Rat))
    (hmem : ∃ r ∈ table, r.id = k) :
    (deleteItem s table).1 = ⟨200, RespBody.deletedMsg (k : Rat)⟩ ∧
    (∀ r ∈ (deleteItem s table).2, r.id ≠ k) ∧
    (deleteItem s (deleteItem s table).2).1 = ⟨404, RespBody.notFoundErr⟩ := by
  obtain ⟨r, hr, hid⟩ := hmem
  have hany : table.any (matchesId (k : Rat)) = true :=
    any_matches_of_mem hr (by exact_mod_cast hid)
  have hdel := deleteItem_found table hs hany
  rw [hdel]
  refine ⟨rfl, ?_, ?_⟩
  · intro r2 hr2 hk
    have h2 := (List.mem_filter.mp hr2).2
    simp [matchesId, hk] at h2
  · rw [deleteItem_missing _ hs (filter_no_match _ _)]

unseal Rat.add Rat.mul Rat.inv in
/-- C1 witness: deleting row 1 from the three seeded test rows. -/
theorem delete_existing_success_then_404_wit :
    (deleteItem "1"
        [⟨1, "Test Item 1"⟩, ⟨2, "Test Item 2"⟩, ⟨3, "Test Item 3"⟩]).1 =
      ⟨200, RespBody.deletedMsg ((1 : Int) : Rat)⟩ ∧
    (∀ r ∈ (deleteItem "1"
        [⟨1, "Test Item 1"⟩, ⟨2, "Test Item 2"⟩, ⟨3, "Test Item 3"⟩]).2,
      r.id ≠ (1 : Int)) ∧
    (deleteItem "1" (deleteItem "1"
        [⟨1, "Test Item 1"⟩, ⟨2, "Test Item 2"⟩, ⟨3, "Test Item 3"⟩]).2).1 =
      ⟨404, RespBody.notFoundErr⟩ :=
  delete_existing_success_then_404 _ 1 "1" (by decide)
    ⟨⟨1, "Test Item 1"⟩, List.mem_cons_self _ _, rfl⟩

/-- C2 counterexample: the claim includes the empty string among the
non-numeric-coercible inputs that get a 400, but `DELETE /api/items/`
(empty id segment) never reaches the handler: the route does not match and
the framework answers 404, not 400 with the validation body. -/
theorem empty_segment_routing_404 :
    parseNumber "" = none ∧
    dispatch "" [⟨1, "Test Item 1"⟩] = RouteResult.unmatched ∧
    routeStatus (dispatch "" [⟨1, "Test Item 1"⟩]) = 404 := by
  refine ⟨by decide, by decide, by decide⟩

/-- C2 (amended): for every nonempty path segment `s` that is not
numeric-coercible, `DELETE /api/items/s` answers 400 with body
`Valid item ID is required` and leaves the items table unchanged. -/
theorem invalid_id_returns_400 (s : String) (table : List Item)
    (hne : s ≠ "") (h : parseNumber s = none) :
    dispatch s table = RouteResult.handled ⟨400, RespBody.invalidErr⟩ table := by
  simp [dispatch, hne, deleteItem_invalid table h]

/-- C2 witness: the alphabetic segment `"abc"` is rejected with 400 and no
side effects. -/
theorem invalid_id_returns_400_wit :
    dispatch "abc" [⟨1, "Test Item 1"⟩] =
      RouteResult.handled ⟨400, RespBody.invalidErr⟩ [⟨1, "Test Item 1"⟩] :=
  invalid_id_returns_400 "abc" _ (by decide) (by decide)

/-- C3: for every numeric-coercible identifier matching no stored row,
`DELETE /api/items/n` answers 404 with body `Item not found`, the table
unchanged. -/
theorem unknown_id_returns_404 (s : String) (q : Rat) (table : List Item)
    (hs : parseNumber s = some q) (h : ∀ r ∈ table, (r.id : Rat) ≠ q) :
    deleteItem s table = (⟨404, RespBody.notFoundErr⟩, table) :=
  deleteItem_missing table hs (any_matches_false h)

unseal Rat.add Rat.mul Rat.inv in
/-- C3 witness: the absent id 99999 used by the test suite. -/
theorem unknown_id_returns_404_wit :
    deleteItem "99999"
        [⟨1, "Test Item 1"⟩, ⟨2, "Test Item 2"⟩, ⟨3, "Test Item 3"⟩] =
      (⟨404, RespBody.notFoundErr⟩,
        [⟨1, "Test Item 1"⟩, ⟨2, "Test Item 2"⟩, ⟨3, "Test Item 3"⟩]) :=
  unknown_id_returns_404 "99999" ((99999 : Int) : Rat) _ (by decide) (by decide)

/-- C4: two delete requests for the same existing row `k` (the runtime's
single-threaded dispatch runs the synchronous handler of each request
atomically, so a simultaneous pair executes as the two serialized
requests): the first answers 200, the second 404, and the second changes
nothing, so exactly one of the pair reports success and the row is deleted
at most once. -/
theorem concurrent_deletes_one_success (table : List Item) (k : Int)
    (s : String) (hs : parseNumber s = some (k : Rat))
    (hmem : ∃ r ∈ table, r.id = k) :
    (deleteItem s table).1.status = 200 ∧
    (deleteItem s (deleteItem s table).2).1.status = 404 ∧
    (deleteItem s (deleteItem s table).2).2 = (deleteItem s table).2 := by
  obtain ⟨r, hr, hid⟩ := hmem
  have hany : table.any (matchesId (k : Rat)) = true :=
    any_matches_of_mem hr (by exact_mod_cast hid)
  have hdel := deleteItem_found table hs hany
  rw [hdel]
  have h2 := deleteItem_missing
    (table.filter (fun it => !matchesId (k : Rat) it)) hs (filter_no_match _ _)
  rw [h2]
  exact ⟨rfl, rfl, rfl⟩

unseal Rat.add Rat.mul Rat.inv in
/-- C4 witness: the racing pair on seeded row 2. -/
theorem concurrent_deletes_one_success_wit :
    (deleteItem "2"
        [⟨1, "Test Item 1"⟩, ⟨2, "Test Item 2"⟩, ⟨3, "Test Item 3"⟩]).1.status =
      200 ∧
    (deleteItem "2" (deleteItem "2"
        [⟨1, "Test Item 1"⟩, ⟨2, "Test Item 2"⟩,
          ⟨3, "Test Item 3"⟩]).2).1.status = 404 ∧
    (deleteItem "2" (deleteItem "2"
        [⟨1, "Test Item 1"⟩, ⟨2, "Test Item 2"⟩, ⟨3, "Test Item 3"⟩]).2).2 =
      (deleteItem "2"
        [⟨1, "Test Item 1"⟩, ⟨2, "Test Item 2"⟩, ⟨3, "Test Item 3"⟩]).2 :=
  concurrent_deletes_one_success _ 2 "2" (by decide)
    ⟨⟨2, "Test Item 2"⟩, by simp, rfl⟩
unseal Rat.add Rat.mul Rat.inv in
/-- C5: the validator accepts every numeric-coercible string. Against a
table whose row ids are all positive (no row ever has id ≤ 0):
`DELETE /api/items/0` and a delete of segment `"-1"` answer 404; `"1.5"` is
numeric-coercible (parsed to 3/2) and `DELETE /api/items/1.5` answers 404
rather than 400; and `DELETE /api/items/` (empty segment) is answered by
routing (unmatched route), not by the handler's validation path. -/
theorem boundary_ids_404_and_routing (table : List Item)
    (hpos : ∀ r ∈ table, 1 ≤ r.id) :
    (deleteItem "0" table).1 = ⟨404, RespBody.notFoundErr⟩ ∧
    (deleteItem "-1" table).1 = ⟨404, RespBody.notFoundErr⟩ ∧
    parseNumber "1.5" = some (3 / 2) ∧
    (deleteItem "1.5" table).1 = ⟨404, RespBody.notFoundErr⟩ ∧
    dispatch "" table = RouteResult.unmatched := by
  have h0 : parseNumber "0" = some ((0 : Int) : Rat) := by decide
  have hm1 : parseNumber "-1" = some ((-1 : Int) : Rat) := by decide
  have h15 : parseNumber "1.5" = some (3 / 2) := by decide
  refine ⟨?_, ?_, h15, ?_, by simp [dispatch]⟩
  · have hfalse : table.any (matchesId ((0 : Int) : Rat)) = false :=
      any_matches_false (by
        intro r hr heq
        have h1 := hpos r hr
        have h2 : r.id = (0 : Int) := by exact_mod_cast heq
        omega)
    rw [deleteItem_missing table h0 hfalse]
  · have hfalse : table.any (matchesId ((-1 : Int) : Rat)) = false :=
      any_matches_false (by
        intro r hr heq
        have h1 := hpos r hr
        have h2 : r.id = (-1 : Int) := by exact_mod_cast heq
        omega)
    rw [deleteItem_missing table hm1 hfalse]
  · have hfalse : table.any (matchesId (3 / 2 : Rat)) = false :=
      any_matches_false (by
        intro r hr heq
        have h3 : ((2 * r.id : Int) : Rat) = 3 := by
          push_cast
          rw [heq]
          norm_num
        have h4 : (2 * r.id : Int) = 3 := by exact_mod_cast h3
        omega)
    rw [deleteItem_missing table h15 hfalse]

unseal Rat.add Rat.mul Rat.inv in
/-- C5 witness: the three seeded test rows. -/
theorem boundary_ids_404_and_routing_wit :
    (deleteItem "0"
        [⟨1, "Test Item 1"⟩, ⟨2, "Test Item 2"⟩, ⟨3, "Test Item 3"⟩]).1 =
      ⟨404, RespBody.notFoundErr⟩ ∧
    (deleteItem "-1"
        [⟨1, "Test Item 1"⟩, ⟨2, "Test Item 2"⟩, ⟨3, "Test Item 3"⟩]).1 =
      ⟨404, RespBody.notFoundErr⟩ ∧
    parseNumber "1.5" = some (3 / 2) ∧
    (deleteItem "1.5"
        [⟨1, "Test Item 1"⟩, ⟨2, "Test Item 2"⟩, ⟨3, "Test Item 3"⟩]).1 =
      ⟨404, RespBody.notFoundErr⟩ ∧
    dispatch "" [⟨1, "Test Item 1"⟩, ⟨2, "Test Item 2"⟩, ⟨3, "Test Item 3"⟩] =
      RouteResult.unmatched :=
  boundary_ids_404_and_routing
    [⟨1, "Test Item 1"⟩, ⟨2, "Test Item 2"⟩, ⟨3, "Test Item 3"⟩] (by decide)

/-- C6: deleting row `kr` (id `k`) from the table `[a, kr, b]` answers 200
and leaves exactly the rows `a` and `b`, unchanged in content and order. -/
theorem delete_preserves_other_rows (a b kr : Item) (k : Int) (s : String)
    (hs : parseNumber s = some (k : Rat)) (hk : kr.id = k)
    (ha : a.id ≠ k) (hb : b.id ≠ k) :
    deleteItem s [a, kr, b] =
      (⟨200, RespBody.deletedMsg (k : Rat)⟩, [a, b]) := by
  have hany : ([a, kr, b]).any (matchesId (k : Rat)) = true :=
    any_matches_of_mem (r := kr) (by simp) (by exact_mod_cast hk)
  rw [deleteItem_found _ hs hany]
  simp [List.filter, matchesId_intCast, ha, hb, hk]

unseal Rat.add Rat.mul Rat.inv in
/-- C6 witness: deleting the middle seeded row keeps the outer two. -/
theorem delete_preserves_other_rows_wit :
    deleteItem "2" [⟨1, "Test Item 1"⟩, ⟨2, "Test Item 2"⟩, ⟨3, "Test Item 3"⟩] =
      (⟨200, RespBody.deletedMsg ((2 : Int) : Rat)⟩,
        [⟨1, "Test Item 1"⟩, ⟨3, "Test Item 3"⟩]) :=
  delete_preserves_other_rows ⟨1, "Test Item 1"⟩ ⟨3, "Test Item 3"⟩
    ⟨2, "Test Item 2"⟩ 2 "2" (by decide) rfl (by decide) (by decide)

/-- C7: repeated deletes of an id matching no row are idempotent: each
attempt answers 404 with the identical `Item not found` body (equal
structured bodies serialise to identical bytes) and leaves the table in its
original state. -/
theorem delete_missing_idempotent (s : String) (q : Rat) (table : List Item)
    (hs : parseNumber s = some q) (h : ∀ r ∈ table, (r.id : Rat) ≠ q) :
    deleteItem s table = (⟨404, RespBody.notFoundErr⟩, table) ∧
    deleteItem s (deleteItem s table).2 =
      (⟨404, RespBody.notFoundErr⟩, table) := by
  have h1 := deleteItem_missing table hs (any_matches_false h)
  refine ⟨h1, ?_⟩
  rw [h1]
  exact h1

unseal Rat.add Rat.mul Rat.inv in
/-- C7 witness: two deletes of the absent id 42424. -/
theorem delete_missing_idempotent_wit :
    deleteItem "42424" [⟨1, "Test Item 1"⟩] =
      (⟨404, RespBody.notFoundErr⟩, [⟨1, "Test Item 1"⟩]) ∧
    deleteItem "42424" (deleteItem "42424" [⟨1, "Test Item 1"⟩]).2 =
      (⟨404, RespBody.notFoundErr⟩, [⟨1, "Test Item 1"⟩]) :=
  delete_missing_idempotent "42424" ((42424 : Int) : Rat) _ (by decide)
    (by decide)

/-- C8: a successful (200) delete reports the parsed numeric value of the
identifier in the body's id field - the integer `k`, not the original
path-parameter string. -/
theorem success_body_numeric_id (table : List Item) (k : Int) (s : String)
    (hs : parseNumber s = some (k : Rat)) (hmem : ∃ r ∈ table, r.id = k) :
    (deleteItem s table).1 = ⟨200, RespBody.deletedMsg (k : Rat)⟩ := by
  obtain ⟨r, hr, hid⟩ := hmem
  rw [deleteItem_found table hs (any_matches_of_mem hr (by exact_mod_cast hid))]

unseal Rat.add Rat.mul Rat.inv in
/-- C8 witness: the string `"3"` deletes row 3 and the body id is the
number 3. -/
theorem success_body_numeric_id_wit :
    (deleteItem "3"
        [⟨1, "Test Item 1"⟩, ⟨2, "Test Item 2"⟩, ⟨3, "Test Item 3"⟩]).1 =
      ⟨200, RespBody.deletedMsg ((3 : Int) : Rat)⟩ :=
  success_body_numeric_id _ 3 "3" (by decide)
    ⟨⟨3, "Test Item 3"⟩, by simp, rfl⟩

/-- C9: every request is answered with one of the mapped statuses 200, 400
or 404 (the handler is a total function - no outcome escapes as an
unhandled fault), and every non-200 outcome leaves the items table exactly
as it was: there are no partial-failure states. -/
theorem failures_leave_table_unchanged (s : String) (table : List Item) :
    ((deleteItem s table).1.status = 200 ∨ (deleteItem s table).1.status = 400 ∨
      (deleteItem s table).1.status = 404) ∧
    ((deleteItem s table).1.status ≠ 200 → (deleteItem s table).2 = table) := by
  cases hp : parseNumber s with
  | none => simp [deleteItem, hp]
  | some q =>
    cases hany : table.any (matchesId q) with
    | true => simp [deleteItem, hp, hany]
    | false => simp [deleteItem, hp, hany]

/-- C9 witness: the rejected segment `"abc"` leaves the table unchanged. -/
theorem failures_leave_table_unchanged_wit :
    (deleteItem "abc" [⟨1, "Test Item 1"⟩]).2 = [⟨1, "Test Item 1"⟩] :=
  (failures_leave_table_unchanged "abc" [⟨1, "Test Item 1"⟩]).2 (by decide)

unseal Rat.add Rat.mul Rat.inv in
/-- C10: the identifier string for `Number.MAX_SAFE_INTEGER`
(9007199254740991) is numeric-coercible, and when no row carries that id
the request answers 404 `Item not found` - it is neither rejected with 400
nor an unhandled fault (the handler is total). -/
theorem max_safe_integer_coercible_404 :
    parseNumber "9007199254740991" = some ((9007199254740991 : Int) : Rat) ∧
    ∀ table : List Item, (∀ r ∈ table, r.id ≠ (9007199254740991 : Int)) →
      deleteItem "9007199254740991" table =
        (⟨404, RespBody.notFoundErr⟩, table) := by
  have hp : parseNumber "9007199254740991" =
      some ((9007199254740991 : Int) : Rat) := by decide
  refine ⟨hp, ?_⟩
  intro table h
  refine deleteItem_missing table hp (any_matches_false ?_)
  intro r hr heq
  exact h r hr (by exact_mod_cast heq)

unseal Rat.add Rat.mul Rat.inv in
/-- C10 witness: a seeded table without that id. -/
theorem max_safe_integer_coercible_404_wit :
    deleteItem "9007199254740991" [⟨1, "Test Item 1"⟩] =
      (⟨404, RespBody.notFoundErr⟩, [⟨1, "Test Item 1"⟩]) :=
  max_safe_integer_coercible_404.2 [⟨1, "Test Item 1"⟩] (by decide)
